import Mathlib

/-!
Verification of the DGT vehicle-report processing core
(`src/pdf_parser.py` and `src/business_logic.py`).

Strings are modelled as `List Char`; Python `datetime` values carry no
useful time component here (parsed dates are midnight), so they are
modelled as calendar dates.  `datetime.now()` is modelled as an explicit
evaluation-date parameter threaded through the rule engine.
-/

namespace DGT

abbrev Str := List Char

/-! ## Characters and basic string operations -/

/-- Python `str.isspace` for the whitespace characters relevant to
`str.split()` / `str.strip()` on this document format. -/
def pyIsSpace (c : Char) : Bool :=
  c = ' ' || c = '\t' || c = '\n' || c = '\r' || c = '\x0b' || c = '\x0c'

/-- Python `str.upper()`, restricted to ASCII letters plus the accented
Spanish letters that occur in this document format. -/
def charUpper (c : Char) : Char :=
  if c = 'á' then 'Á' else if c = 'é' then 'É' else if c = 'í' then 'Í'
  else if c = 'ó' then 'Ó' else if c = 'ú' then 'Ú' else if c = 'ñ' then 'Ñ'
  else if c = 'ü' then 'Ü' else c.toUpper

/-- `needle` is a prefix of `hay` (Python `str.startswith`, used to model
substring containment). -/
def isPrefixL : Str → Str → Bool
  | [], _ => true
  | _ :: _, [] => false
  | a :: as, b :: bs => a = b && isPrefixL as bs

/-- `isSubstr needle hay` models Python's `needle in hay` on strings. -/
def isSubstr (needle : Str) : Str → Bool
  | [] => needle.isEmpty
  | c :: t => isPrefixL needle (c :: t) || isSubstr needle t

/-- Python `str.strip()`: drop whitespace from both ends. -/
def pyStrip (s : Str) : Str :=
  ((s.dropWhile pyIsSpace).reverse.dropWhile pyIsSpace).reverse

/-- Worker for `pyWords`: accumulate the current word (reversed) and cut
at whitespace, discarding empty pieces, exactly like Python `str.split()`
with no argument. -/
def pyWordsGo (acc : List Char) : List Char → List (List Char)
  | [] => if acc = [] then [] else [acc.reverse]
  | c :: cs =>
    if pyIsSpace c then
      if acc = [] then pyWordsGo [] cs else acc.reverse :: pyWordsGo [] cs
    else pyWordsGo (c :: acc) cs

/-- Python `str.split()` (no separator argument): whitespace-delimited
words, empty pieces discarded. -/
def pyWords (s : Str) : List (List Char) := pyWordsGo [] s

/-- `str.replace(' ', '')`: remove space characters (only `' '`). -/
def stripSpaces (s : Str) : Str := s.filter (fun c => c ≠ ' ')

/-! ## Client matching (`BusinessLogic._normalize_text`, `_matches_client`) -/

/-- `BusinessLogic._normalize_text`: `' '.join(text.upper().split())`. -/
def normalizeText (s : Str) : Str :=
  List.intercalate [' '] (pyWords (s.map charUpper))

/-- The containment part of `BusinessLogic._matches_client`
(source lines 25–44): after normalizing both strings, succeed iff either
contains the other, or the same containment holds with spaces removed.
The source's sequence of early `return True`s is the disjunction below. -/
def matchesCore (cliente text : Str) : Bool :=
  isSubstr (normalizeText cliente) (normalizeText text) ||
  isSubstr (normalizeText text) (normalizeText cliente) ||
  (isSubstr (stripSpaces (normalizeText cliente)) (stripSpaces (normalizeText text)) ||
   isSubstr (stripSpaces (normalizeText text)) (stripSpaces (normalizeText cliente)))

/-- The configured client filter: `None` or a string; Python's
`if not self.cliente_nif` treats both `None` and `""` as "no filter". -/
def clientFalsy : Option Str → Bool
  | none => true
  | some c => c.isEmpty

/-- `BusinessLogic._matches_client`: returns `true` when no (truthy)
client filter is configured, otherwise the containment test. -/
def matchesClient (cfg : Option Str) (text : Str) : Bool :=
  match cfg with
  | none => true
  | some c => if c = [] then true else matchesCore c text

/-! ## Basic lemmas about containment and normalization -/

theorem isSubstr_nil_left (l : Str) : isSubstr [] l = true := by
  cases l with
  | nil => rfl
  | cons c t => simp [isSubstr, isPrefixL]

theorem normalizeText_nil : normalizeText [] = [] := rfl

theorem matchesCore_nil_left (x : Str) : matchesCore [] x = true := by
  simp [matchesCore, normalizeText_nil, isSubstr_nil_left]

theorem matchesCore_nil_right (x : Str) : matchesCore x [] = true := by
  simp [matchesCore, normalizeText_nil, isSubstr_nil_left]

/-! ## Calendar dates (Python `datetime` restricted to its date part) -/

/-- A Python `datetime` as it occurs in this program: the parser only ever
builds midnight datetimes, and the rule engine only uses ordering, the
`.days` of differences, and `%d/%m/%Y` formatting, so the date part
suffices.  `datetime.now()` becomes an explicit evaluation-date value. -/
structure Date where
  year : Nat
  month : Nat
  day : Nat
deriving DecidableEq

/-- Gregorian leap year. -/
def isLeap (y : Nat) : Bool := (y % 4 = 0 && y % 100 ≠ 0) || y % 400 = 0

def daysInMonth (y m : Nat) : Nat :=
  if m = 1 then 31 else if m = 2 then (if isLeap y then 29 else 28)
  else if m = 3 then 31 else if m = 4 then 30 else if m = 5 then 31
  else if m = 6 then 30 else if m = 7 then 31 else if m = 8 then 31
  else if m = 9 then 30 else if m = 10 then 31 else if m = 11 then 30
  else 31

/-- Days in year `y` strictly before month `m`. -/
def daysBeforeMonth (y m : Nat) : Nat :=
  (List.range (m - 1)).foldl (fun acc k => acc + daysInMonth y (k + 1)) 0

/-- `datetime.toordinal()`: proleptic Gregorian ordinal, day 1 = 0001-01-01. -/
def ordinal (d : Date) : Nat :=
  365 * (d.year - 1) + (d.year - 1) / 4 - (d.year - 1) / 100 + (d.year - 1) / 400
    + daysBeforeMonth d.year d.month + d.day

/-- `(a - b).days` on midnight datetimes. -/
def dateDiff (a b : Date) : Int := (ordinal a : Int) - (ordinal b : Int)

/-- Python `datetime` comparison (lexicographic on year, month, day). -/
def dateLe (a b : Date) : Bool :=
  if a.year ≠ b.year then decide (a.year < b.year)
  else if a.month ≠ b.month then decide (a.month < b.month)
  else decide (a.day ≤ b.day)

/-- `datetime.min`'s date part, the sort key used for absent ITV dates. -/
def dateMin : Date := ⟨1, 1, 1⟩

/-- `Nat.toDigits 10`, i.e. the decimal digit string of `n`. -/
def natDigits (n : Nat) : Str := Nat.toDigits 10 n

/-- Two-digit zero-padded field of `strftime('%d/%m/%Y')`. -/
def pad2 (n : Nat) : Str := if n < 10 then '0' :: natDigits n else natDigits n

/-- `strftime('%d/%m/%Y')` (years in this program are four-digit). -/
def fmtDate (d : Date) : Str :=
  pad2 d.day ++ '/' :: pad2 d.month ++ '/' :: natDigits d.year

/-! ## Field parsing (`DGTParser._parse_date`, `DGTParser._parse_km`) -/

/-- Split a string at every `'/'` (the separator of `%d/%m/%Y`); the
day/month/year patterns of `strptime` cannot contain `'/'`, so matching
the whole string against the format is equivalent to requiring exactly
three slash-separated components, each matching its own pattern. -/
def splitSlashGo (acc : List Char) : List Char → List (List Char)
  | [] => [acc.reverse]
  | c :: cs =>
    if c = '/' then acc.reverse :: splitSlashGo [] cs
    else splitSlashGo (c :: acc) cs

def splitSlash (s : Str) : List (List Char) := splitSlashGo [] s

/-- Decimal value of an (ASCII) digit string. -/
def natOfDigits (s : Str) : Nat :=
  s.foldl (fun n c => 10 * n + (c.toNat - '0'.toNat)) 0

/-- `datetime.strptime(s, '%d/%m/%Y')` as an `Option`.  CPython compiles
`%d` to 1–2 digits with value 1..31, `%m` to 1–2 digits with value 1..12
and `%Y` to exactly four digits, requires the whole string to match, and
the `datetime` constructor then validates the day against the month
length and requires `year ≥ 1` (ASCII digits modelled). -/
def strptimeDMY (s : Str) : Option Date :=
  match splitSlash s with
  | [ds, ms, ys] =>
    if ds.all Char.isDigit ∧ 1 ≤ ds.length ∧ ds.length ≤ 2
        ∧ ms.all Char.isDigit ∧ 1 ≤ ms.length ∧ ms.length ≤ 2
        ∧ ys.all Char.isDigit ∧ ys.length = 4 then
      if 1 ≤ natOfDigits ds ∧ natOfDigits ds ≤ 31
          ∧ 1 ≤ natOfDigits ms ∧ natOfDigits ms ≤ 12
          ∧ 1 ≤ natOfDigits ys
          ∧ natOfDigits ds ≤ daysInMonth (natOfDigits ys) (natOfDigits ms) then
        some ⟨natOfDigits ys, natOfDigits ms, natOfDigits ds⟩
      else none
    else none
  | _ => none

/-- `DGTParser._parse_date`: `None` for empty input or the `'---'`
placeholder, otherwise strict `%d/%m/%Y` parsing of the stripped string,
with any failure yielding `None`. -/
def parseDate (s : Str) : Option Date :=
  if s = [] ∨ s = "---".toList then none
  else strptimeDMY (pyStrip s)

/-- Python `int(s)` digit run: `digit (['_'] digit)*` (underscores are
legal between digits since Python 3.6). -/
def pyDigitRun : List Char → Bool
  | [] => false
  | c :: rest => c.isDigit && pyDigitRunGo rest
where pyDigitRunGo : List Char → Bool
  | [] => true
  | '_' :: c :: rest => c.isDigit && pyDigitRunGo rest
  | c :: rest => c.isDigit && pyDigitRunGo rest

/-- Python `int(s)` on ASCII input: strip whitespace, optional sign,
then a digit run; `none` models `ValueError`. -/
def pyIntParse (s : Str) : Option Int :=
  let t := pyStrip s
  match t with
  | '+' :: rest =>
    if pyDigitRun rest then some (natOfDigits (rest.filter (fun c => c ≠ '_'))) else none
  | '-' :: rest =>
    if pyDigitRun rest then some (-(natOfDigits (rest.filter (fun c => c ≠ '_')) : Int)) else none
  | _ =>
    if pyDigitRun t then some (natOfDigits (t.filter (fun c => c ≠ '_'))) else none

/-- `km_str.replace('.', '').replace(' ', '')`. -/
def stripSeps (s : Str) : Str :=
  (s.filter (fun c => c ≠ '.')).filter (fun c => c ≠ ' ')

/-- `DGTParser._parse_km`: 0 for empty input or the `'---'` placeholder;
otherwise strip thousand-separator dots and spaces and convert with
`int`, any failure yielding 0. -/
def parseKm (s : Str) : Int :=
  if s = [] ∨ s = "---".toList then 0
  else
    match pyIntParse (stripSeps s) with
    | some n => n
    | none => 0

/-! ## Data model (`pdf_parser.VehicleData` and the result dictionary) -/

/-- An entry of `historial_titulares` (only the key the rule engine
reads). -/
structure TitRec where
  fecha_inicio : Option Date
deriving DecidableEq

/-- An entry of `historial_arrendatarios`. -/
structure ArrRec where
  fecha_inicio : Option Date
  fecha_fin : Option Date
  filiacion : Str
deriving DecidableEq

/-- An entry of `historial_itvs` (the keys the rule engine reads). -/
structure Itv where
  fecha_itv : Option Date
  resultado : Str
  kilometros : Int
deriving DecidableEq

/-- An entry of `historial_bajas` (the keys the rule engine reads). -/
structure BajaRec where
  fecha_inicio : Option Date
  fecha_fin : Option Date
deriving DecidableEq

/-- `pdf_parser.VehicleData`, restricted to the fields the rule engine
reads. -/
structure VehicleData where
  matricula : Str
  titular_actual : Str
  es_renting : Bool
  arrendatario_actual : Str
  historial_titulares : List TitRec
  historial_arrendatarios : List ArrRec
  historial_itvs : List Itv
  historial_bajas : List BajaRec
deriving DecidableEq

/-- The result dictionary built by `BusinessLogic.process_vehicle`. -/
structure ProcResult where
  matricula : Str
  fecha_penulti : Option Date
  lectura_k_penulti : Int
  fecha_ult : Option Date
  lectura_k_ult : Int
  dias_entre : Int
  km_itvs : Int
  km_1_ano : Int
  km_int : Int
  km_nac : Int
  comentarios : List Str
deriving DecidableEq

/-- The initial result dictionary (source lines 49–61). -/
def initResult (d : VehicleData) : ProcResult :=
  { matricula := d.matricula
    fecha_penulti := none
    lectura_k_penulti := 0
    fecha_ult := none
    lectura_k_ult := 0
    dias_entre := 0
    km_itvs := 0
    km_1_ano := 0
    km_int := 0
    km_nac := 0
    comentarios := [] }

/-- `result['comentarios'].append(m)`. -/
def addC (r : ProcResult) (m : Str) : ProcResult :=
  { r with comentarios := r.comentarios ++ [m] }

/-! ## Commentary message constants -/

def msgNoCAEs : Str := "El vehículo no es susceptible de generar CAEs".toList
def msgSinHistorial : Str := "Sin historial de ITVs".toList
def msgSoloUna : Str := "Solo una ITV válida con kilometraje consistente".toList
def msgSinLecturas : Str := "ITVs válidas sin lecturas de kilometraje".toList
def msgSinValidas : Str := "Sin ITVs válidas (todas DESFAVORABLE/NEGATIVA)".toList
def msgReset : Str := "Reseteo de cuentakilómetros detectado".toList
def msgDias : Str := "Días entre ≤ 0, km 1 año = N/A".toList

/-- The cutoff `datetime(2023, 1, 1)` of rules 3 and 3.5. -/
def cutoffDate : Date := ⟨2023, 1, 1⟩

/-! ## Eligibility (`_check_titularity`, `_check_renting`) -/

/-- `BusinessLogic._check_titularity`. -/
def checkTitularity (cfg : Option Str) (d : VehicleData) : Bool :=
  if clientFalsy cfg then true
  else matchesClient cfg d.titular_actual

/-- Lease duration in days used by `_check_renting` (source lines
102–116): from start to end when an end date exists, otherwise from
start to the evaluation date; `none` when the record has no start. -/
def durationDays (now : Date) (a : ArrRec) : Option Int :=
  match a.fecha_inicio with
  | none => none
  | some i =>
    some (match a.fecha_fin with
          | none => dateDiff now i
          | some f => dateDiff f i)

/-- `days / 30.44 > 14` on integer days.  `14 * 30.44 = 426.16`, so the
comparison holds iff `days * 100 > 42616`; the float rounding of the
source cannot change this on integer day counts. -/
def monthsGt14 (days : Int) : Bool := days * 100 > 42616

/-- One iteration of the `_check_renting` history loop: the record
qualifies when its lessee matches the client and its duration exceeds
the 14-month threshold. -/
def rentingRecOk (cfg : Option Str) (now : Date) (a : ArrRec) : Bool :=
  matchesClient cfg a.filiacion &&
  (match durationDays now a with
   | some days => monthsGt14 days
   | none => false)

/-- `BusinessLogic._check_renting`.  The source returns `True` early
when the (truthy) current lessee matches, and otherwise scans the lease
history; that control flow is the disjunction below. -/
def checkRenting (cfg : Option Str) (now : Date) (d : VehicleData) : Bool :=
  if clientFalsy cfg then d.es_renting
  else if d.es_renting then
    (!d.arrendatario_actual.isEmpty && matchesClient cfg d.arrendatario_actual)
      || d.historial_arrendatarios.any (rentingRecOk cfg now)
  else false

/-! ## Commentary rules (`_check_bajas`, `_check_titularidad_renting_changes`) -/

/-- The commentary a deregistration record produces in `_check_bajas`:
a message when its start date exists and is on/after the cutoff,
nothing otherwise. -/
def bajaComment (b : BajaRec) : Option Str :=
  match b.fecha_inicio with
  | some i =>
    if dateLe cutoffDate i then
      some ("Vehículo de baja del ".toList ++ fmtDate i ++ " hasta el ".toList ++
            (match b.fecha_fin with
             | some f => fmtDate f
             | none => "Actual".toList))
    else none
  | none => none

/-- `BusinessLogic._check_bajas`: the loop appends one message per
qualifying record, in history order. -/
def checkBajas (d : VehicleData) (r : ProcResult) : ProcResult :=
  d.historial_bajas.foldl
    (fun acc b =>
      match bajaComment b with
      | some m => addC acc m
      | none => acc) r

/-- The titularity-change scan of `_check_titularidad_renting_changes`:
the first record whose start date exists and is on/after the cutoff
(the loop `break`s after the first hit). -/
def titChangeDate (l : List TitRec) : Option Date :=
  l.findSome? (fun t =>
    match t.fecha_inicio with
    | some i => if dateLe cutoffDate i then some i else none
    | none => none)

def titChangeMsgs (d : VehicleData) : List Str :=
  match titChangeDate d.historial_titulares with
  | some i => ["Cambio de titularidad el ".toList ++ fmtDate i]
  | none => []

/-- The renting-change messages of `_check_titularidad_renting_changes`,
read off the most recent lease record, in the source's append order. -/
def rentChangeMsgs (d : VehicleData) : List Str :=
  if d.es_renting then
    match d.historial_arrendatarios with
    | [] => []
    | a :: _ =>
      (match a.fecha_inicio with
       | some i =>
         if dateLe cutoffDate i then ["Inicio de renting el ".toList ++ fmtDate i] else []
       | none => []) ++
      (match a.fecha_fin with
       | some f =>
         if dateLe cutoffDate f then ["Fin de renting el ".toList ++ fmtDate f] else []
       | none => []) ++
      (match a.fecha_inicio, a.fecha_fin with
       | some _, none => ["Renting actualmente activo".toList]
       | _, _ => [])
  else []

/-- `BusinessLogic._check_titularidad_renting_changes`: net effect of the
sequence of conditional appends. -/
def checkChanges (d : VehicleData) (r : ProcResult) : ProcResult :=
  { r with comentarios := r.comentarios ++ titChangeMsgs d ++ rentChangeMsgs d }

/-! ## ITV metrics (`_calculate_itv_metrics`) -/

/-- Sort key of the ITV sort: the inspection date, `datetime.min` when
absent. -/
def itvKey (i : Itv) : Date := i.fecha_itv.getD dateMin

/-- `a` may precede `b` in the descending sort (`sorted(..., reverse=True)`
orders by key descending and is stable). -/
def itvBefore (a b : Itv) : Bool := dateLe (itvKey b) (itvKey a)

/-- Stable insertion of `x` in front of the first element it may
precede. -/
def insertItv (x : Itv) : List Itv → List Itv
  | [] => [x]
  | y :: ys => if itvBefore x y then x :: y :: ys else y :: insertItv x ys

/-- Stable descending sort by inspection date; agrees with Python's
stable `sorted(..., key=..., reverse=True)`. -/
def sortItvsDesc (l : List Itv) : List Itv := l.foldr insertItv []

/-- The validity filter (source lines 195–202): discard records whose
uppercased outcome contains `DESFAVORABLE` or `NEGATIVA`. -/
def validItv (i : Itv) : Bool :=
  !(isSubstr "DESFAVORABLE".toList (i.resultado.map charUpper)) &&
  !(isSubstr "NEGATIVA".toList (i.resultado.map charUpper))

/-- `valid_itvs`: the sorted history with invalid outcomes discarded. -/
def validItvsOf (d : VehicleData) : List Itv :=
  (sortItvsDesc d.historial_itvs).filter validItv

/-- `itvs_with_km`: valid records with a positive odometer reading. -/
def kmItvsOf (d : VehicleData) : List Itv :=
  (validItvsOf d).filter (fun i => 0 < i.kilometros)

/-- The main metrics computation (source lines 234–271) once última `u`
and penúltima `p` are selected. -/
def metricsCore (u p : Itv) (r : ProcResult) : ProcResult :=
  if u.fecha_itv = p.fecha_itv ∧ u.kilometros = p.kilometros then
    addC r msgNoCAEs
  else
    let r1 := { r with fecha_ult := u.fecha_itv, lectura_k_ult := u.kilometros,
                       fecha_penulti := p.fecha_itv, lectura_k_penulti := p.kilometros }
    -- `if result['fecha_ult'] and result['fecha_penulti']`: a datetime is
    -- always truthy, `None` is falsy.
    let r2 :=
      match u.fecha_itv, p.fecha_itv with
      | some du, some dp =>
        let dias := dateDiff du dp
        let r3 := { r1 with dias_entre := dias }
        if 0 < u.kilometros ∧ 0 < p.kilometros then
          if u.kilometros < p.kilometros then
            { addC r3 msgReset with km_itvs := 0, km_1_ano := 0 }
          else
            let r4 := { r3 with km_itvs := u.kilometros - p.kilometros }
            -- `int((km_itvs * 365) / dias)`: both operands are positive in
            -- this branch, so exact integer division matches Python's
            -- float-then-truncate.
            if 0 < dias then { r4 with km_1_ano := r4.km_itvs * 365 / dias }
            else addC r4 msgDias
        else r3
      | _, _ => r1
    { r2 with km_int := 0, km_nac := 0 }

/-- `BusinessLogic._calculate_itv_metrics`.  The source's
`if len(itvs_with_km) >= 2 / == 1 / else` ladder is the match on
`kmItvsOf`; the later `if len(working_itvs) < 2` fallback (source lines
226–232, the `'Solo una ITV válida con kilometraje consistente'` path)
is unreachable because `working_itvs` is only ever assigned when
`len(itvs_with_km) >= 2`. -/
def calcItvMetrics (d : VehicleData) (r : ProcResult) : ProcResult :=
  if d.historial_itvs = [] then addC r msgSinHistorial
  else
    match kmItvsOf d with
    | u :: p :: _ => metricsCore u p r
    | [_] => addC r msgNoCAEs
    | [] =>
      match validItvsOf d with
      | v :: _ => { addC r msgSinLecturas with fecha_ult := v.fecha_itv }
      | [] => addC r msgSinValidas

/-! ## The pipeline (`process_vehicle`) -/

/-- `BusinessLogic.process_vehicle`: eligibility gate, then the three
rules in order.  `now` is the value `datetime.now()` would take during
the run. -/
def processVehicle (cfg : Option Str) (now : Date) (d : VehicleData) : ProcResult :=
  if checkTitularity cfg d || checkRenting cfg now d then
    calcItvMetrics d (checkChanges d (checkBajas d (initResult d)))
  else addC (initResult d) msgNoCAEs

/-! ## Output formatting (`format_output_row`) -/

/-- Python `str(n)` on an integer. -/
def pyIntStr (n : Int) : Str :=
  if n < 0 then '-' :: natDigits n.natAbs else natDigits n.natAbs

/-- `fmt_int` inside `format_output_row`. -/
def fmtInt (n : Int) : Str := if 0 < n then pyIntStr n else ['0']

/-- `fmt_date` inside `format_output_row`. -/
def fmtDateOpt : Option Date → Str
  | some d => fmtDate d
  | none => ['-']

/-- `'; '.join(comentarios) if comentarios else ''`. -/
def joinComments (l : List Str) : Str :=
  if l.isEmpty then [] else List.intercalate "; ".toList l

/-- `BusinessLogic.format_output_row`. -/
def formatOutputRow (r : ProcResult) : List Str :=
  [r.matricula,
   fmtDateOpt r.fecha_penulti,
   fmtInt r.lectura_k_penulti,
   fmtDateOpt r.fecha_ult,
   fmtInt r.lectura_k_ult,
   fmtInt r.dias_entre,
   fmtInt r.km_itvs,
   fmtInt r.km_1_ano,
   fmtInt r.km_int,
   fmtInt r.km_nac,
   joinComments r.comentarios]

/-! ## Shared example data -/

/-- A `VehicleData` with every field at its dataclass default. -/
def emptyVD : VehicleData :=
  { matricula := []
    titular_actual := []
    es_renting := false
    arrendatario_actual := []
    historial_titulares := []
    historial_arrendatarios := []
    historial_itvs := []
    historial_bajas := [] }

/-! ## Helper lemmas -/

theorem or4_comm : ∀ p q r s : Bool,
    (p || q || (r || s)) = (q || p || (s || r)) := by decide

/-- Net effect of the `_check_bajas` loop on an arbitrary record list. -/
theorem bajasFoldl_eq (l : List BajaRec) (r : ProcResult) :
    (l.foldl
      (fun acc b =>
        match bajaComment b with
        | some m => addC acc m
        | none => acc) r) =
    { r with comentarios := r.comentarios ++ l.filterMap bajaComment } := by
  induction l generalizing r with
  | nil => simp
  | cons b t ih =>
    simp only [List.foldl_cons, List.filterMap_cons]
    cases h : bajaComment b with
    | none => rw [ih]
    | some m => rw [ih]; simp [addC]

theorem checkBajas_eq (d : VehicleData) (r : ProcResult) :
    checkBajas d r =
      { r with comentarios := r.comentarios ++ d.historial_bajas.filterMap bajaComment } :=
  bajasFoldl_eq d.historial_bajas r

/-- An empty inspection history produces an empty working set. -/
theorem kmItvsOf_of_nil (d : VehicleData) (h : d.historial_itvs = []) :
    kmItvsOf d = [] := by
  simp [kmItvsOf, validItvsOf, sortItvsDesc, h]

theorem ne_of_dateDiff_pos {a b : Date} (h : 0 < dateDiff a b) : a ≠ b := by
  intro heq
  subst heq
  simp [dateDiff] at h

/-- Reduction of `calcItvMetrics` when at least two valid positive-reading
records exist. -/
theorem calcItvMetrics_two (d : VehicleData) (r : ProcResult) {u p : Itv}
    {rest : List Itv} (hne : d.historial_itvs ≠ [])
    (hkm : kmItvsOf d = u :: p :: rest) :
    calcItvMetrics d r = metricsCore u p r := by
  simp [calcItvMetrics, hne, hkm]

/-- Reduction of `calcItvMetrics` when exactly one valid positive-reading
record exists: the source marks the vehicle ineligible (lines 211–214);
the `'Solo una ITV válida...'` fallback is dead code. -/
theorem calcItvMetrics_one (d : VehicleData) (r : ProcResult) {w : Itv}
    (hne : d.historial_itvs ≠ []) (hkm : kmItvsOf d = [w]) :
    calcItvMetrics d r = addC r msgNoCAEs := by
  simp [calcItvMetrics, hne, hkm]

/-- `metricsCore` in the regular branch: distinct dates, positive
non-decreasing readings, positive elapsed days. -/
theorem metricsCore_main {u p : Itv} {du dp : Date} (r : ProcResult)
    (hdu : u.fecha_itv = some du) (hdp : p.fecha_itv = some dp)
    (hu : 0 < u.kilometros) (hp : 0 < p.kilometros)
    (hle : p.kilometros ≤ u.kilometros) (hdias : 0 < dateDiff du dp) :
    metricsCore u p r =
      { r with
        fecha_ult := some du, lectura_k_ult := u.kilometros,
        fecha_penulti := some dp, lectura_k_penulti := p.kilometros,
        dias_entre := dateDiff du dp,
        km_itvs := u.kilometros - p.kilometros,
        km_1_ano := (u.kilometros - p.kilometros) * 365 / dateDiff du dp,
        km_int := 0, km_nac := 0 } := by
  have hdne : ¬((some du : Option Date) = some dp ∧ u.kilometros = p.kilometros) := by
    rintro ⟨hf, -⟩
    exact ne_of_dateDiff_pos hdias (Option.some_injective _ hf)
  simp only [metricsCore, hdu, hdp]
  rw [if_neg hdne, if_pos ⟨hu, hp⟩, if_neg (not_lt.mpr hle), if_pos hdias]

/-- `metricsCore` in the odometer-reset branch: distinct readings with
the most recent strictly smaller. -/
theorem metricsCore_reset {u p : Itv} {du dp : Date} (r : ProcResult)
    (hdu : u.fecha_itv = some du) (hdp : p.fecha_itv = some dp)
    (hu : 0 < u.kilometros) (hlt : u.kilometros < p.kilometros) :
    metricsCore u p r =
      { r with
        fecha_ult := some du, lectura_k_ult := u.kilometros,
        fecha_penulti := some dp, lectura_k_penulti := p.kilometros,
        dias_entre := dateDiff du dp,
        km_itvs := 0, km_1_ano := 0,
        km_int := 0, km_nac := 0,
        comentarios := r.comentarios ++ [msgReset] } := by
  have hdne : ¬((some du : Option Date) = some dp ∧ u.kilometros = p.kilometros) := by
    rintro ⟨-, hk⟩
    exact absurd hk (ne_of_lt hlt)
  simp only [metricsCore, hdu, hdp]
  rw [if_neg hdne, if_pos ⟨hu, lt_trans hu hlt⟩, if_pos hlt]
  simp [addC]

/-! ## Claim C1 -/

/-- A history with exactly one positive-reading inspection. -/
def c1ex : VehicleData :=
  { emptyVD with historial_itvs := [⟨some ⟨2024, 5, 1⟩, "FAVORABLE".toList, 100⟩] }

/-- Claim C1 as stated is false: with exactly one positive-reading
inspection, `process_vehicle` appends the ineligibility message
`'El vehículo no es susceptible de generar CAEs'` (source lines
211–214), not `'Solo una ITV válida con kilometraje consistente'`, and
the last-inspection fields stay at their defaults — the single-record
fallback of source lines 226–232 is unreachable. -/
theorem c1_counterexample :
    (kmItvsOf c1ex).length = 1 ∧
    (processVehicle none ⟨2025, 1, 1⟩ c1ex).comentarios = [msgNoCAEs] ∧
    msgSoloUna ∉ (processVehicle none ⟨2025, 1, 1⟩ c1ex).comentarios ∧
    (processVehicle none ⟨2025, 1, 1⟩ c1ex).fecha_ult = none ∧
    (processVehicle none ⟨2025, 1, 1⟩ c1ex).lectura_k_ult = 0 := by
  decide

/-- Claim C1, amended: if, after discarding DESFAVORABLE/NEGATIVA
inspections, exactly one record has a positive odometer reading, an
eligible vehicle's result commentary gains the fixed ineligibility
message `'El vehículo no es susceptible de generar CAEs'`, and the
last- and penultimate-inspection fields all remain absent/zero. -/
theorem c1_amended (cfg : Option Str) (now : Date) (d : VehicleData)
    (hE : (checkTitularity cfg d || checkRenting cfg now d) = true)
    (hne : d.historial_itvs ≠ []) (hlen : (kmItvsOf d).length = 1) :
    msgNoCAEs ∈ (processVehicle cfg now d).comentarios ∧
    (processVehicle cfg now d).fecha_ult = none ∧
    (processVehicle cfg now d).lectura_k_ult = 0 ∧
    (processVehicle cfg now d).fecha_penulti = none ∧
    (processVehicle cfg now d).lectura_k_penulti = 0 ∧
    (processVehicle cfg now d).dias_entre = 0 ∧
    (processVehicle cfg now d).km_itvs = 0 ∧
    (processVehicle cfg now d).km_1_ano = 0 := by
  obtain ⟨w, hw⟩ : ∃ w, kmItvsOf d = [w] := by
    cases h : kmItvsOf d with
    | nil => rw [h] at hlen; simp at hlen
    | cons a t =>
      cases t with
      | nil => exact ⟨a, rfl⟩
      | cons b t' => rw [h] at hlen; simp at hlen
  have hrun : processVehicle cfg now d =
      addC (checkChanges d (checkBajas d (initResult d))) msgNoCAEs := by
    rw [processVehicle, if_pos hE, calcItvMetrics_one d _ hne hw]
  rw [hrun, checkBajas_eq]
  simp [addC, checkChanges, initResult]

/-- Witness for `c1_amended` at the concrete one-record history. -/
theorem c1_witness :
    msgNoCAEs ∈ (processVehicle none ⟨2025, 1, 1⟩ c1ex).comentarios ∧
    (processVehicle none ⟨2025, 1, 1⟩ c1ex).fecha_ult = none := by
  have h := c1_amended none ⟨2025, 1, 1⟩ c1ex (by decide) (by decide) (by decide)
  exact ⟨h.1, h.2.1⟩

/-! ## Claim C2 -/

/-- The inspection history of the spec's worked example. -/
def c2ex : VehicleData :=
  { emptyVD with historial_itvs :=
      [⟨some ⟨2024, 3, 1⟩, "FAVORABLE".toList, 100000⟩,
       ⟨some ⟨2023, 3, 1⟩, "FAVORABLE".toList, 90000⟩] }

/-- Claim C2: on the worked example the metrics are penultimate
90000 @ 2023-03-01, last 100000 @ 2024-03-01, 366 elapsed days, delta
10000 and projection 9972; and in general, with positive non-decreasing
selected readings and positive elapsed days, the delta is last −
penultimate and the projection is the integer part of
`delta * 365 / days`. -/
theorem c2_metrics :
    ((processVehicle none ⟨2025, 1, 1⟩ c2ex).fecha_penulti = some ⟨2023, 3, 1⟩ ∧
     (processVehicle none ⟨2025, 1, 1⟩ c2ex).lectura_k_penulti = 90000 ∧
     (processVehicle none ⟨2025, 1, 1⟩ c2ex).fecha_ult = some ⟨2024, 3, 1⟩ ∧
     (processVehicle none ⟨2025, 1, 1⟩ c2ex).lectura_k_ult = 100000 ∧
     (processVehicle none ⟨2025, 1, 1⟩ c2ex).dias_entre = 366 ∧
     (processVehicle none ⟨2025, 1, 1⟩ c2ex).km_itvs = 10000 ∧
     (processVehicle none ⟨2025, 1, 1⟩ c2ex).km_1_ano = 9972) ∧
    (∀ (d : VehicleData) (r : ProcResult) (u p : Itv) (rest : List Itv)
       (du dp : Date),
      kmItvsOf d = u :: p :: rest →
      u.fecha_itv = some du → p.fecha_itv = some dp →
      0 < u.kilometros → 0 < p.kilometros → p.kilometros ≤ u.kilometros →
      0 < dateDiff du dp →
      calcItvMetrics d r =
        { r with
          fecha_ult := some du, lectura_k_ult := u.kilometros,
          fecha_penulti := some dp, lectura_k_penulti := p.kilometros,
          dias_entre := dateDiff du dp,
          km_itvs := u.kilometros - p.kilometros,
          km_1_ano := (u.kilometros - p.kilometros) * 365 / dateDiff du dp,
          km_int := 0, km_nac := 0 }) := by
  constructor
  · exact ⟨by decide, by decide, by decide, by decide, by decide, by decide, by decide⟩
  · intro d r u p rest du dp hkm hdu hdp hu hp hle hdias
    have hne : d.historial_itvs ≠ [] := by
      intro h0
      rw [kmItvsOf_of_nil d h0] at hkm
      exact List.noConfusion hkm
    rw [calcItvMetrics_two d r hne hkm]
    exact metricsCore_main r hdu hdp hu hp hle hdias

/-- Witness for the general part of `c2_metrics`, instantiated at the
spec's worked example. -/
theorem c2_witness :
    (calcItvMetrics c2ex (initResult c2ex)).dias_entre = 366 ∧
    (calcItvMetrics c2ex (initResult c2ex)).km_itvs = 10000 ∧
    (calcItvMetrics c2ex (initResult c2ex)).km_1_ano = 9972 := by
  have h := c2_metrics.2 c2ex (initResult c2ex)
    ⟨some ⟨2024, 3, 1⟩, "FAVORABLE".toList, 100000⟩
    ⟨some ⟨2023, 3, 1⟩, "FAVORABLE".toList, 90000⟩ []
    ⟨2024, 3, 1⟩ ⟨2023, 3, 1⟩
    (by decide) rfl rfl (by decide) (by decide) (by decide) (by decide)
  rw [h]
  exact ⟨by decide, by decide, by decide⟩

/-! ## Claim C3 -/

/-- Two positive-reading FAVORABLE inspections whose dates both failed
to parse (e.g. `99/99/2024` matches the row pattern but is rejected by
`strptime`), with the more recent reading smaller. -/
def c3ex : VehicleData :=
  { emptyVD with historial_itvs :=
      [⟨none, "FAVORABLE".toList, 100⟩, ⟨none, "FAVORABLE".toList, 200⟩] }

/-- Claim C3 as stated is false: when the two selected inspections have
positive readings with the last strictly smaller but their dates are
absent, the `result['fecha_ult'] and result['fecha_penulti']` guard
(source line 249) skips the whole delta block, so no reset message is
emitted (the km fields do stay 0). -/
theorem c3_counterexample :
    kmItvsOf c3ex =
      [⟨none, "FAVORABLE".toList, 100⟩, ⟨none, "FAVORABLE".toList, 200⟩] ∧
    (processVehicle none ⟨2025, 1, 1⟩ c3ex).lectura_k_ult = 100 ∧
    (processVehicle none ⟨2025, 1, 1⟩ c3ex).lectura_k_penulti = 200 ∧
    msgReset ∉ (processVehicle none ⟨2025, 1, 1⟩ c3ex).comentarios ∧
    (processVehicle none ⟨2025, 1, 1⟩ c3ex).km_itvs = 0 ∧
    (processVehicle none ⟨2025, 1, 1⟩ c3ex).km_1_ano = 0 := by
  decide

/-- Claim C3, amended: when the selected last and penultimate
inspections both carry (non-absent) dates and positive readings and the
last reading is strictly smaller, an eligible vehicle's commentary
contains `'Reseteo de cuentakilómetros detectado'` and both `km_itvs`
and `km_1_ano` are 0.  (With an absent date the km fields are still 0
but no message is emitted.) -/
theorem c3_amended (cfg : Option Str) (now : Date) (d : VehicleData)
    (u p : Itv) (rest : List Itv) (du dp : Date)
    (hE : (checkTitularity cfg d || checkRenting cfg now d) = true)
    (hkm : kmItvsOf d = u :: p :: rest)
    (hdu : u.fecha_itv = some du) (hdp : p.fecha_itv = some dp)
    (hu : 0 < u.kilometros) (hlt : u.kilometros < p.kilometros) :
    msgReset ∈ (processVehicle cfg now d).comentarios ∧
    (processVehicle cfg now d).km_itvs = 0 ∧
    (processVehicle cfg now d).km_1_ano = 0 := by
  have hne : d.historial_itvs ≠ [] := by
    intro h0
    rw [kmItvsOf_of_nil d h0] at hkm
    exact List.noConfusion hkm
  have hrun : processVehicle cfg now d =
      metricsCore u p (checkChanges d (checkBajas d (initResult d))) := by
    rw [processVehicle, if_pos hE, calcItvMetrics_two d _ hne hkm]
  rw [hrun, metricsCore_reset _ hdu hdp hu hlt]
  simp

/-- Witness for `c3_amended`: the spec's reset example, 50000 after
100000, with parsed dates. -/
theorem c3_witness :
    msgReset ∈ (processVehicle none ⟨2025, 1, 1⟩
      { emptyVD with historial_itvs :=
          [⟨some ⟨2024, 3, 1⟩, "FAVORABLE".toList, 50000⟩,
           ⟨some ⟨2023, 3, 1⟩, "FAVORABLE".toList, 100000⟩] }).comentarios ∧
    (processVehicle none ⟨2025, 1, 1⟩
      { emptyVD with historial_itvs :=
          [⟨some ⟨2024, 3, 1⟩, "FAVORABLE".toList, 50000⟩,
           ⟨some ⟨2023, 3, 1⟩, "FAVORABLE".toList, 100000⟩] }).km_itvs = 0 := by
  have h := c3_amended none ⟨2025, 1, 1⟩
    { emptyVD with historial_itvs :=
        [⟨some ⟨2024, 3, 1⟩, "FAVORABLE".toList, 50000⟩,
         ⟨some ⟨2023, 3, 1⟩, "FAVORABLE".toList, 100000⟩] }
    ⟨some ⟨2024, 3, 1⟩, "FAVORABLE".toList, 50000⟩
    ⟨some ⟨2023, 3, 1⟩, "FAVORABLE".toList, 100000⟩ []
    ⟨2024, 3, 1⟩ ⟨2023, 3, 1⟩
    (by decide) (by decide) rfl rfl (by decide) (by decide)
  exact ⟨h.1, h.2.1⟩

/-! ## Claim C4 -/

/-- One lease-history record qualifies iff its lessee matches and its
duration exceeds the 14-month threshold. -/
theorem rentingRecOk_iff (cfg : Option Str) (now : Date) (a : ArrRec) :
    rentingRecOk cfg now a = true ↔
      matchesClient cfg a.filiacion = true ∧
      ∃ days, durationDays now a = some days ∧ monthsGt14 days = true := by
  cases h : durationDays now a with
  | none => simp [rentingRecOk, h]
  | some days => simp [rentingRecOk, h]

/-- Claim C4: with a client filter set, a non-matching titleholder and a
leased vehicle, the renting check passes iff a (present, i.e. nonempty)
current lessee matches the client, or some historical lease record's
lessee matches and its duration — end − start when an end date exists,
otherwise evaluation time − start, divided by 30.44 days — strictly
exceeds 14 months; and when the renting check also fails,
`process_vehicle` returns immediately with the single fixed commentary
and every other field at its default. -/
theorem c4_renting (c : Str) (now : Date) (d : VehicleData)
    (hc : c ≠ []) (htit : checkTitularity (some c) d = false)
    (hrent : d.es_renting = true) :
    (checkRenting (some c) now d = true ↔
      (d.arrendatario_actual ≠ [] ∧
        matchesClient (some c) d.arrendatario_actual = true) ∨
      (∃ a ∈ d.historial_arrendatarios,
        matchesClient (some c) a.filiacion = true ∧
        ∃ days, durationDays now a = some days ∧ monthsGt14 days = true)) ∧
    (checkRenting (some c) now d = false →
      processVehicle (some c) now d =
        { matricula := d.matricula, fecha_penulti := none,
          lectura_k_penulti := 0, fecha_ult := none, lectura_k_ult := 0,
          dias_entre := 0, km_itvs := 0, km_1_ano := 0, km_int := 0,
          km_nac := 0, comentarios := [msgNoCAEs] }) := by
  have hfal : clientFalsy (some c) = false := by
    simp [clientFalsy, List.isEmpty_iff, hc]
  constructor
  · rw [checkRenting, hfal, if_neg Bool.false_ne_true, hrent]
    simp only [if_true, Bool.or_eq_true, Bool.and_eq_true, Bool.not_eq_true',
      List.isEmpty_eq_false, List.any_eq_true]
    constructor
    · rintro (⟨hne, hm⟩ | ⟨a, ha, hok⟩)
      · exact Or.inl ⟨hne, hm⟩
      · exact Or.inr ⟨a, ha, (rentingRecOk_iff (some c) now a).mp hok⟩
    · rintro (⟨hne, hm⟩ | ⟨a, ha, hok⟩)
      · exact Or.inl ⟨hne, hm⟩
      · exact Or.inr ⟨a, ha, (rentingRecOk_iff (some c) now a).mpr hok⟩
  · intro hrf
    rw [processVehicle, htit, hrf]
    simp [addC, initResult]

/-- A leased vehicle with a matching 24-month historical lease. -/
def c4ex : VehicleData :=
  { emptyVD with
      titular_actual := "ZZZ".toList
      es_renting := true
      historial_arrendatarios :=
        [⟨some ⟨2022, 1, 1⟩, some ⟨2024, 1, 1⟩, "ACME".toList⟩] }

/-- Witness for `c4_renting`: the historical lease branch fires. -/
theorem c4_witness :
    checkRenting (some "ACME".toList) ⟨2025, 1, 1⟩ c4ex = true := by
  have h := (c4_renting "ACME".toList ⟨2025, 1, 1⟩ c4ex
      (by decide) (by decide) rfl).1
  exact h.mpr (Or.inr ⟨⟨some ⟨2022, 1, 1⟩, some ⟨2024, 1, 1⟩, "ACME".toList⟩,
    by decide, by decide, 730, by decide, by decide⟩)

/-! ## Claim C5 -/

/-- Claim C5: `_check_bajas` appends, to whatever commentary already
exists, exactly one message per deregistration record whose start date
is present and on/after the 2023-01-01 cutoff (cumulatively, in history
order), and nothing for any other record. -/
theorem c5_bajas (d : VehicleData) (r : ProcResult) :
    (checkBajas d r).comentarios =
      r.comentarios ++ d.historial_bajas.filterMap bajaComment ∧
    (∀ b ∈ d.historial_bajas, ∀ i, b.fecha_inicio = some i →
      dateLe cutoffDate i = true →
      ∃ m, bajaComment b = some m ∧ m ∈ (checkBajas d r).comentarios) ∧
    (∀ b ∈ d.historial_bajas,
      (b.fecha_inicio = none ∨
       ∃ i, b.fecha_inicio = some i ∧ dateLe cutoffDate i = false) →
      bajaComment b = none) := by
  refine ⟨by rw [checkBajas_eq], ?_, ?_⟩
  · intro b hb i hi hcut
    obtain ⟨m, hm⟩ : ∃ m, bajaComment b = some m := by
      rw [bajaComment, hi]
      simp [hcut]
    refine ⟨m, hm, ?_⟩
    rw [checkBajas_eq]
    simp only [List.mem_append]
    exact Or.inr (List.mem_filterMap.mpr ⟨b, hb, hm⟩)
  · rintro b _ (hn | ⟨i, hi, hcut⟩)
    · simp [bajaComment, hn]
    · simp [bajaComment, hi, hcut]

/-- Witness for `c5_bajas`: one pre-cutoff and one post-cutoff
deregistration record. -/
theorem c5_witness :
    ∃ m, bajaComment (⟨some ⟨2023, 5, 10⟩, none⟩ : BajaRec) = some m ∧
      m ∈ (checkBajas
        { emptyVD with historial_bajas :=
            [⟨some ⟨2020, 1, 1⟩, some ⟨2020, 2, 1⟩⟩,
             ⟨some ⟨2023, 5, 10⟩, none⟩] }
        (initResult emptyVD)).comentarios := by
  exact (c5_bajas
      { emptyVD with historial_bajas :=
          [⟨some ⟨2020, 1, 1⟩, some ⟨2020, 2, 1⟩⟩,
           ⟨some ⟨2023, 5, 10⟩, none⟩] }
      (initResult emptyVD)).2.1
    ⟨some ⟨2023, 5, 10⟩, none⟩ (by decide) ⟨2023, 5, 10⟩ rfl (by decide)

/-! ## Claim C6 -/

/-- Claim C6: for every configured client string the fuzzy containment
test accepts the empty string (the normalized empty string is a
substring of everything), so a vehicle whose titleholder was never
found — `titular_actual` left at its empty default — always passes the
titularity check. -/
theorem c6_empty_titular (c : Str) (d : VehicleData)
    (h : d.titular_actual = []) :
    matchesClient (some c) [] = true ∧ checkTitularity (some c) d = true := by
  have hm : matchesClient (some c) [] = true := by
    rw [matchesClient]
    split
    · rfl
    · exact matchesCore_nil_right c
  refine ⟨hm, ?_⟩
  rw [checkTitularity]
  split
  · rfl
  · rw [h]; exact hm

/-- Witness for `c6_empty_titular` at a concrete client. -/
theorem c6_witness :
    matchesClient (some "ACME SL".toList) [] = true ∧
    checkTitularity (some "ACME SL".toList) emptyVD = true :=
  c6_empty_titular "ACME SL".toList emptyVD rfl

/-! ## Claim C7 -/

/-- A leased vehicle whose only lease record is open-ended: eligibility
then depends on the evaluation clock. -/
def c7ex : VehicleData :=
  { emptyVD with
      titular_actual := "ZZZ".toList
      es_renting := true
      historial_arrendatarios := [⟨some ⟨2023, 1, 1⟩, none, "ACME".toList⟩] }

/-- Claim C7 as stated is false: the pipeline's output is not a function
of the document text and client filter alone — `_check_renting` (and
`_parse_arrendatario`) read `datetime.now()`, so the same vehicle data
and client yield different results at different evaluation times (here
the open-ended lease crosses the 14-month threshold between the two
dates). -/
theorem c7_counterexample :
    processVehicle (some "ACME".toList) ⟨2023, 6, 1⟩ c7ex ≠
    processVehicle (some "ACME".toList) ⟨2025, 1, 1⟩ c7ex := by
  decide

/-- Claim C7, amended: the pipeline is deterministic once the evaluation
time is fixed — identical vehicle data, client filter and evaluation
date always yield identical results. -/
theorem c7_amended (cfg : Option Str) (now : Date) (d d' : VehicleData)
    (h : d = d') :
    processVehicle cfg now d = processVehicle cfg now d' := by
  rw [h]

/-- Witness for `c7_amended`. -/
theorem c7_witness :
    processVehicle (some "ACME".toList) ⟨2025, 1, 1⟩ c7ex =
    processVehicle (some "ACME".toList) ⟨2025, 1, 1⟩ c7ex :=
  c7_amended (some "ACME".toList) ⟨2025, 1, 1⟩ c7ex c7ex rfl

/-! ## Claim C8 -/

/-- Claim C8: the client-matching test is symmetric, both as the bare
containment test (normalize, contain either way, also space-free) and
with the source's empty-filter guard included. -/
theorem c8_matches_symm :
    (∀ a b : Str, matchesCore a b = matchesCore b a) ∧
    (∀ a b : Str, matchesClient (some a) b = matchesClient (some b) a) := by
  have hcore : ∀ a b : Str, matchesCore a b = matchesCore b a := by
    intro a b
    simp only [matchesCore]
    exact or4_comm _ _ _ _
  refine ⟨hcore, ?_⟩
  intro a b
  by_cases ha : a = [] <;> by_cases hb : b = [] <;>
    simp [matchesClient, ha, hb, matchesCore_nil_right, matchesCore_nil_left, hcore a b]

/-! ## Claim C9 -/

/-- A genuinely valid calendar date (what Python's `datetime`
constructor enforces). -/
def validDate (d : Date) : Prop :=
  1 ≤ d.year ∧ 1 ≤ d.month ∧ d.month ≤ 12 ∧ 1 ≤ d.day ∧
    d.day ≤ daysInMonth d.year d.month

/-- Every successful `strptime` result is a valid calendar date. -/
theorem strptimeDMY_sound (s : Str) :
    strptimeDMY s = none ∨
    ∃ dt, strptimeDMY s = some dt ∧ validDate dt := by
  rw [strptimeDMY]
  split
  · split_ifs with h1 h2
    · obtain ⟨hd1, -, hm1, hm2, hy1, hdm⟩ := h2
      exact Or.inr ⟨_, rfl, hy1, hm1, hm2, hd1, hdm⟩
    · exact Or.inl rfl
    · exact Or.inl rfl
  · exact Or.inl rfl

/-- Claim C9: the field parsers are total — date parsing yields `none`
on empty input, the `'---'` placeholder and anything that fails strict
`DD/MM/YYYY` parsing, and any `some` result is a valid calendar date;
kilometre parsing strips thousand-separator dots and stray spaces and
yields 0 on empty, placeholder or non-numeric input. -/
theorem c9_field_parsing :
    (parseDate [] = none ∧ parseDate "---".toList = none ∧
     parseDate "abc".toList = none ∧ parseDate "31/02/2023".toList = none ∧
     parseDate "01/03/2024".toList = some ⟨2024, 3, 1⟩) ∧
    (∀ s, parseDate s = none ∨
      ∃ dt, parseDate s = some dt ∧ validDate dt) ∧
    (parseKm [] = 0 ∧ parseKm "---".toList = 0 ∧
     parseKm "1.234.567".toList = 1234567 ∧
     parseKm "12 345".toList = 12345 ∧ parseKm "abc".toList = 0) ∧
    (∀ s, pyIntParse (stripSeps s) = none → parseKm s = 0) := by
  refine ⟨⟨by decide, by decide, by decide, by decide, by decide⟩, ?_,
    ⟨by decide, by decide, by decide, by decide, by decide⟩, ?_⟩
  · intro s
    rw [parseDate]
    split_ifs with h
    · exact Or.inl rfl
    · exact strptimeDMY_sound (pyStrip s)
  · intro s hnone
    rw [parseKm]
    split_ifs with h
    · rfl
    · rw [hnone]

/-- Witness for `c9_field_parsing` at a non-numeric kilometre string. -/
theorem c9_witness : parseKm "12a".toList = 0 :=
  c9_field_parsing.2.2.2 "12a".toList (by decide)

/-! ## Claim C10 -/

/-- Claim C10: `format_output_row` renders an 11-element row in the
fixed column order, dates as `DD/MM/YYYY` or `'-'` when absent, every
integer metric as its decimal string when strictly positive and `'0'`
otherwise (so negative elapsed days render as `'0'`), and the
commentary joined with `'; '` (empty when there is none). -/
theorem c10_format (r : ProcResult) :
    (formatOutputRow r).length = 11 ∧
    formatOutputRow r =
      [r.matricula,
       (match r.fecha_penulti with | some d => fmtDate d | none => ['-']),
       (if 0 < r.lectura_k_penulti then pyIntStr r.lectura_k_penulti else ['0']),
       (match r.fecha_ult with | some d => fmtDate d | none => ['-']),
       (if 0 < r.lectura_k_ult then pyIntStr r.lectura_k_ult else ['0']),
       (if 0 < r.dias_entre then pyIntStr r.dias_entre else ['0']),
       (if 0 < r.km_itvs then pyIntStr r.km_itvs else ['0']),
       (if 0 < r.km_1_ano then pyIntStr r.km_1_ano else ['0']),
       (if 0 < r.km_int then pyIntStr r.km_int else ['0']),
       (if 0 < r.km_nac then pyIntStr r.km_nac else ['0']),
       List.intercalate "; ".toList r.comentarios] ∧
    (r.dias_entre < 0 → (formatOutputRow r).get? 5 = some ['0']) ∧
    (r.comentarios = [] → (formatOutputRow r).get? 10 = some []) := by
  refine ⟨rfl, ?_, ?_, ?_⟩
  · cases hc : r.comentarios <;>
      simp [formatOutputRow, fmtDateOpt, fmtInt, joinComments, hc, List.intercalate]
  · intro h
    have : ¬(0 < r.dias_entre) := by omega
    simp [formatOutputRow, fmtInt, this]
  · intro h
    simp [formatOutputRow, joinComments, h]

/-- Witness for `c10_format`: negative elapsed days and empty
commentary render as `'0'` and the empty string. -/
theorem c10_witness :
    (formatOutputRow { initResult emptyVD with dias_entre := -5 }).get? 5 =
      some ['0'] ∧
    (formatOutputRow { initResult emptyVD with dias_entre := -5 }).get? 10 =
      some [] := by
  have h := c10_format { initResult emptyVD with dias_entre := -5 }
  exact ⟨h.2.2.1 (by decide), h.2.2.2 rfl⟩

end DGT
